import Mathlib

set_option linter.all false

namespace Mercury

/-! String primitives mirroring the JavaScript operations used by the source,
implemented over `List Char` by structural/fuel recursion so that every
definition evaluates inside the kernel. -/

/-- JS truthiness of an optional string: `undefined` and the empty string are falsy. -/
def truthy : Option String → Bool
  | some s => !(s == "")
  | none => false

/-- Substring occurrence test on character lists. -/
def listContainsSub (needle : List Char) : List Char → Bool
  | [] => needle.isEmpty
  | c :: rest => needle.isPrefixOf (c :: rest) || listContainsSub needle rest

/-- JS `hay.includes(needle)`. -/
def strIncludes (hay needle : String) : Bool :=
  listContainsSub needle.data hay.data

/-- JS `s.startsWith(pre)`. -/
def jsStartsWith (s pre : String) : Bool :=
  pre.data.isPrefixOf s.data

/-- JS `s.trim()`. -/
def jsTrim (s : String) : String :=
  ⟨((s.data.dropWhile Char.isWhitespace).reverse.dropWhile Char.isWhitespace).reverse⟩

/-- JS `s.toLowerCase()` (ASCII letters, which is all the source compares). -/
def jsToLower (s : String) : String :=
  ⟨s.data.map Char.toLower⟩

/-- Splitter for JS `s.split(sep)` with a non-empty separator string; the fuel
argument is an upper bound on the number of characters still to scan. -/
def splitOnAux (sep : List Char) : Nat → List Char → List Char → List (List Char)
  | 0, l, acc => [acc.reverse ++ l]
  | _ + 1, [], acc => [acc.reverse]
  | n + 1, c :: rest, acc =>
    if sep.isPrefixOf (c :: rest) then
      acc.reverse :: splitOnAux sep n ((c :: rest).drop sep.length) []
    else
      splitOnAux sep n rest (c :: acc)

/-- JS `s.split(sep)` for a string separator. -/
def jsSplit (s sep : String) : List String :=
  if sep.data.isEmpty then [s]
  else (splitOnAux sep.data (s.data.length + 1) s.data []).map (fun l => ⟨l⟩)

/-- Splitter for JS `s.split(regexp)` where the regexp is a single-character class. -/
def splitCharAux (p : Char → Bool) : List Char → List Char → List (List Char)
  | [], acc => [acc.reverse]
  | c :: rest, acc =>
    if p c then acc.reverse :: splitCharAux p rest [] else splitCharAux p rest (c :: acc)

/-- JS `s.split(regexp)` for a single-character class regexp. -/
def jsSplitChar (s : String) (p : Char → Bool) : List String :=
  (splitCharAux p s.data []).map (fun l => ⟨l⟩)

/-- JS `parseInt` on a token: parse the maximal run of leading decimal digits
(e.g. `"3000/tcp"` gives 3000); a token with no leading digit gives `NaN`,
modelled as `none`. -/
def jsParseInt (s : String) : Option Nat :=
  let ds := s.data.takeWhile Char.isDigit
  if ds.isEmpty then none
  else some (ds.foldl (fun a c => a * 10 + (c.toNat - 48)) 0)

/-- JS `(n * 1.5).toString()` for a natural number `n`. -/
def mulOnePointFive (n : Nat) : String :=
  if n % 2 == 0 then toString (n / 2 * 3) else toString (n * 3 / 2) ++ ".5"

/-- JS `s.replace(/\d+/, m => (parseInt(m)*1.5).toString())`: rewrite the first
maximal digit run of the string. -/
def replaceFirstNumber : List Char → List Char
  | [] => []
  | c :: rest =>
    if c.isDigit then
      (mulOnePointFive (((c :: rest).takeWhile Char.isDigit).foldl
        (fun a ch => a * 10 + (ch.toNat - 48)) 0)).data
        ++ (c :: rest).dropWhile Char.isDigit
    else c :: replaceFirstNumber rest

def jsReplaceNum (s : String) : String :=
  ⟨replaceFirstNumber s.data⟩

/-- JS `[...new Set(l)]`: de-duplicate keeping the first occurrence of each
element; the fuel argument is an upper bound on the list length. -/
def jsSetDedupAux : Nat → List Nat → List Nat
  | _, [] => []
  | 0, _ :: _ => []
  | n + 1, x :: xs => x :: jsSetDedupAux n (xs.filter (fun y => y != x))

def jsSetDedup (l : List Nat) : List Nat :=
  jsSetDedupAux l.length l

/-! Data model, following `src/types/repository.ts`. Optional string fields are
`Option String`; `undefined` is `none`. A parsed JSON object field map is an
association list of key/value pairs (keys unique after parsing). -/

structure Scripts where
  build : Option String
  start : Option String
  test : Option String
  deriving Repr, DecidableEq

structure PackageJson where
  dependencies : List (String × String)
  devDependencies : List (String × String)
  scripts : Option Scripts
  deriving Repr, DecidableEq

structure ComposerJson where
  require : Option (List (String × String))
  deriving Repr, DecidableEq

/-- A repository working-tree snapshot: the files the analysis engine reads.
A `none` means the file is absent (or unreadable, which `readFileIfExists`
treats identically). The two JSON manifests are `Option (Option _)`:
`some none` is a file that exists but fails `JSON.parse`. -/
structure Snapshot where
  packageJson : Option (Option PackageJson)
  requirementsTxt : Option String
  appPy : Bool
  mainPy : Bool
  managePy : Bool
  pyprojectToml : Bool
  gemfile : Option String
  goMod : Option String
  pomXml : Bool
  cargoToml : Bool
  composerJson : Option (Option ComposerJson)
  htmlFiles : Bool
  dockerfile : Option String
  envExample : Option String
  deriving Repr, DecidableEq

structure TechStack where
  primary : String
  secondary : List String
  framework : Option String
  language : String
  packageManager : Option String
  buildTool : Option String
  testing : List String
  runtime : String
  deriving Repr, DecidableEq

structure DependencyInfo where
  name : String
  version : String
  depType : String
  deriving Repr, DecidableEq

structure EnvironmentVariable where
  name : String
  required : Bool
  defaultValue : Option String
  sensitive : Bool
  deriving Repr, DecidableEq

structure DockerfileAnalysis where
  baseImage : Option String
  exposedPorts : List Nat
  workdir : Option String
  multiStage : Bool
  healthcheck : Bool
  deriving Repr, DecidableEq

structure BuildConfiguration where
  hasDockerfile : Bool
  dockerfileAnalysis : Option DockerfileAnalysis
  buildScript : Option String
  startScript : Option String
  testScript : Option String
  environmentVariables : List EnvironmentVariable
  deriving Repr, DecidableEq

structure CpuReq where
  min : Nat
  recommended : Nat
  deriving Repr, DecidableEq

structure MemReq where
  min : String
  recommended : String
  deriving Repr, DecidableEq

structure StorageReq where
  min : String
  stype : String
  deriving Repr, DecidableEq

structure NetworkReq where
  ports : List Nat
  protocols : List String
  deriving Repr, DecidableEq

structure ExternalService where
  name : String
  stype : String
  required : Bool
  deriving Repr, DecidableEq

structure DeploymentRequirements where
  cpu : CpuReq
  memory : MemReq
  storage : StorageReq
  network : NetworkReq
  services : List ExternalService
  constraints : List String
  deriving Repr, DecidableEq

structure DeploymentStep where
  order : Nat
  name : String
  description : String
  timeout : Nat
  deriving Repr, DecidableEq

structure FirewallRule where
  port : Nat
  protocol : String
  source : String
  description : String
  deriving Repr, DecidableEq

structure BackupConfiguration where
  enabled : Bool
  frequency : String
  retention : Nat
  btype : String
  deriving Repr, DecidableEq

structure SecurityConfiguration where
  https : Bool
  firewall : List FirewallRule
  secrets : List String
  monitoring : Bool
  backups : BackupConfiguration
  deriving Repr, DecidableEq

structure HealthCheckCfg where
  endpoint : String
  interval : Nat
  timeout : Nat
  deriving Repr, DecidableEq

structure LoggingCfg where
  level : String
  retention : Nat
  deriving Repr, DecidableEq

structure MonitoringConfiguration where
  healthCheck : HealthCheckCfg
  metrics : List String
  alerts : List String
  logging : LoggingCfg
  deriving Repr, DecidableEq

structure RollbackStrategy where
  rtype : String
  triggers : List String
  steps : List String
  timeout : Nat
  deriving Repr, DecidableEq

structure CostBreakdown where
  component : String
  cost : Nat
  unit : String
  deriving Repr, DecidableEq

structure InstanceCfg where
  itype : String
  cpu : Nat
  memory : String
  storage : String
  deriving Repr, DecidableEq

structure InfraNetworkCfg where
  vpc : Bool
  loadBalancer : Bool
  cdn : Bool
  deriving Repr, DecidableEq

structure ScalingCfg where
  min : Nat
  max : Nat
  target : String
  threshold : Nat
  deriving Repr, DecidableEq

structure EstimatedCost where
  monthly : Nat
  currency : String
  breakdown : List CostBreakdown
  deriving Repr, DecidableEq

structure InfrastructureRecommendation where
  provider : String
  instanceInfo : InstanceCfg
  network : InfraNetworkCfg
  scaling : ScalingCfg
  estimatedCost : EstimatedCost
  deriving Repr, DecidableEq

structure DeploymentStrategy where
  stype : String
  approach : String
  steps : List DeploymentStep
  infrastructure : InfrastructureRecommendation
  security : SecurityConfiguration
  monitoring : MonitoringConfiguration
  rollback : RollbackStrategy
  deriving Repr, DecidableEq

structure RepositoryAnalysis where
  techStack : TechStack
  dependencies : List DependencyInfo
  buildConfig : BuildConfiguration
  requirements : DeploymentRequirements
  strategy : DeploymentStrategy
  confidence : Nat
  warnings : List String
  recommendations : List String
  analysisDate : Nat
  deriving Repr, DecidableEq

/-! Analysis engine, following the `RepositoryService` class in
`src/src/mcp/tools.ts`. -/

/-- Lookup in a parsed dependency map (JS property access on the object). -/
def depLookup (l : List (String × String)) (n : String) : Option String :=
  l.lookup n

/-- Lookup in the JS spread merge `{...dependencies, ...devDependencies}`:
dev-dependency keys shadow runtime-dependency keys. -/
def mergedDep (p : PackageJson) (n : String) : Option String :=
  match depLookup p.devDependencies n with
  | some v => some v
  | none => depLookup p.dependencies n

/-- Truthiness of `dependencies[n]` in the merged map. -/
def hasDep (p : PackageJson) (n : String) : Bool :=
  truthy (mergedDep p n)

/-- Embeds `analyzeNodejsStack` (`tools.ts` lines 652-687). -/
def analyzeNodejsStack (p : PackageJson) : TechStack :=
  let framework :=
    if hasDep p "react" || hasDep p "@types/react" then "react"
    else if hasDep p "vue" then "vue"
    else if hasDep p "angular" || hasDep p "@angular/core" then "angular"
    else if hasDep p "next" then "nextjs"
    else if hasDep p "nuxt" then "nuxt"
    else if hasDep p "express" then "express"
    else if hasDep p "fastify" then "fastify"
    else if hasDep p "nestjs" || hasDep p "@nestjs/core" then "nestjs"
    else "none"
  let buildTools :=
    (if hasDep p "webpack" then ["webpack"] else []) ++
    (if hasDep p "vite" then ["vite"] else []) ++
    (if hasDep p "rollup" then ["rollup"] else []) ++
    (if hasDep p "parcel" then ["parcel"] else [])
  let testingFrameworks :=
    (if hasDep p "jest" then ["jest"] else []) ++
    (if hasDep p "mocha" then ["mocha"] else []) ++
    (if hasDep p "vitest" then ["vitest"] else []) ++
    (if hasDep p "cypress" then ["cypress"] else [])
  { primary := "javascript"
    secondary := buildTools
    framework := some framework
    language := if hasDep p "typescript" || hasDep p "@types/node" then "typescript" else "javascript"
    packageManager := some "npm"
    buildTool := buildTools.head?
    testing := testingFrameworks
    runtime := "nodejs" }

/-- Embeds `analyzePythonStack` (`tools.ts` lines 689-715). -/
def analyzePythonStack (s : Snapshot) : TechStack :=
  let fromRequirements :=
    match s.requirementsTxt with
    | some c =>
      if c == "" then "none"
      else if strIncludes c "django" then "django"
      else if strIncludes c "flask" then "flask"
      else if strIncludes c "fastapi" then "fastapi"
      else if strIncludes c "tornado" then "tornado"
      else "none"
    | none => "none"
  let framework := if s.managePy then "django" else fromRequirements
  let packageManager := if s.pyprojectToml then "poetry" else "pip"
  { primary := "python", secondary := [], framework := some framework,
    language := "python", packageManager := some packageManager,
    buildTool := none, testing := [], runtime := "python" }

/-- Embeds `analyzeRubyStack` (`tools.ts` lines 717-734). -/
def analyzeRubyStack (s : Snapshot) : TechStack :=
  let framework :=
    match s.gemfile with
    | some c =>
      if c == "" then "none"
      else if strIncludes c "rails" then "rails"
      else if strIncludes c "sinatra" then "sinatra"
      else "none"
    | none => "none"
  { primary := "ruby", secondary := [], framework := some framework,
    language := "ruby", packageManager := some "bundler",
    buildTool := none, testing := [], runtime := "ruby" }

/-- Embeds `analyzeGoStack` (`tools.ts` lines 736-754). -/
def analyzeGoStack (s : Snapshot) : TechStack :=
  let frameworks :=
    match s.goMod with
    | some c =>
      if c == "" then []
      else
        (if strIncludes c "gin-gonic" then ["gin"] else []) ++
        (if strIncludes c "echo" then ["echo"] else []) ++
        (if strIncludes c "fiber" then ["fiber"] else [])
    | none => []
  { primary := "go", secondary := frameworks,
    framework := some (frameworks.headD "none"),
    language := "go", packageManager := some "go mod",
    buildTool := none, testing := [], runtime := "go" }

/-- Embeds `analyzeJavaStack` (`tools.ts` lines 756-765). -/
def analyzeJavaStack : TechStack :=
  { primary := "java", secondary := [], framework := some "spring",
    language := "java", packageManager := some "maven",
    buildTool := none, testing := [], runtime := "jvm" }

/-- Embeds `analyzeRustStack` (`tools.ts` lines 767-776). -/
def analyzeRustStack : TechStack :=
  { primary := "rust", secondary := [], framework := some "none",
    language := "rust", packageManager := some "cargo",
    buildTool := none, testing := [], runtime := "native" }

/-- Embeds `analyzePHPStack` (`tools.ts` lines 778-796): `composer.json` is read
with `readJsonFileIfExists`, so a parse failure degrades to no framework. -/
def analyzePHPStack (s : Snapshot) : TechStack :=
  let composer := s.composerJson.bind id
  let framework :=
    match composer.bind (·.require) with
    | some req =>
      if truthy (depLookup req "laravel/framework") then "laravel"
      else if truthy (depLookup req "symfony/symfony") then "symfony"
      else if truthy (depLookup req "codeigniter/framework") then "codeigniter"
      else "none"
    | none => "none"
  { primary := "php", secondary := [], framework := some framework,
    language := "php", packageManager := some "composer",
    buildTool := none, testing := [], runtime := "php" }

/-- Embeds `detectByCommonFiles` (`tools.ts` lines 798-816); `framework`,
`packageManager`, `buildTool` and `testing` are left `undefined` by the source. -/
def detectByCommonFiles (s : Snapshot) : TechStack :=
  if s.htmlFiles then
    { primary := "static", secondary := [], framework := none,
      language := "html", packageManager := none,
      buildTool := none, testing := [], runtime := "static" }
  else
    { primary := "unknown", secondary := [], framework := none,
      language := "unknown", packageManager := none,
      buildTool := none, testing := [], runtime := "unknown" }

/-- Embeds `detectTechStack` (`tools.ts` lines 609-650): a priority-ordered
decision list over manifest presence. The `package.json` branch uses the
throwing `readJsonFile` (lines 1231-1238), so a present-but-unparsable
`package.json` propagates an error. -/
def detectTechStack (s : Snapshot) : Except String TechStack :=
  match s.packageJson with
  | some (some p) => .ok (analyzeNodejsStack p)
  | some none => .error "Could not read JSON file package.json"
  | none =>
    if s.requirementsTxt.isSome || s.appPy || s.mainPy then
      .ok (analyzePythonStack s)
    else if s.gemfile.isSome then .ok (analyzeRubyStack s)
    else if s.goMod.isSome then .ok (analyzeGoStack s)
    else if s.pomXml then .ok analyzeJavaStack
    else if s.cargoToml then .ok analyzeRustStack
    else if s.composerJson.isSome then .ok (analyzePHPStack s)
    else .ok (detectByCommonFiles s)

/-- One line of a Python requirements file, as parsed by `analyzeDependencies`
(`tools.ts` line 845): the line is first split on the character class of the
constraint operators, piece 0 of that split is then split on the two-character
separator `==`, and the destructuring takes the first piece as the name and the
second (defaulting to the empty string) as the version. -/
def pyConstraintChar (c : Char) : Bool :=
  c == '>' || c == '=' || c == '<' || c == '~'

def parsePythonDepLine (line : String) : Option DependencyInfo :=
  let head := (jsSplitChar line pyConstraintChar).headD ""
  let parts := jsSplit head "=="
  let name := parts.headD ""
  let version := (parts.get? 1).getD ""
  if jsTrim name == "" then none
  else some { name := jsTrim name,
              version := if jsTrim version == "" then "latest" else jsTrim version,
              depType := "production" }

/-- Embeds `analyzeDependencies` (`tools.ts` lines 818-857). -/
def analyzeDependencies (s : Snapshot) : List DependencyInfo :=
  let nodeDeps :=
    match s.packageJson.bind id with
    | some p =>
      p.dependencies.map (fun d => { name := d.1, version := d.2, depType := "production" }) ++
      p.devDependencies.map (fun d => { name := d.1, version := d.2, depType := "development" })
    | none => []
  let pyDeps :=
    match s.requirementsTxt with
    | some c =>
      if c == "" then []
      else
        ((jsSplit c "\n").filter
          (fun l => !(jsTrim l == "") && !jsStartsWith l "#")).filterMap parsePythonDepLine
    | none => []
  nodeDeps ++ pyDeps

/-- Embeds `analyzeDockerfile` (`tools.ts` lines 889-914): a line-oriented scan.
the replace of the leading `EXPOSE ` or `WORKDIR ` token removes the first
occurrence, which on a line starting with that token is dropping its prefix;
more than 2 pieces when splitting the whole file on `FROM ` is the global
multi-stage test. -/
def analyzeDockerfile (content : String) : DockerfileAnalysis :=
  let globalMulti := decide ((jsSplit content "FROM ").length > 2)
  (jsSplit content "\n").foldl
    (fun a line =>
      let trimmed := jsTrim line
      if jsStartsWith trimmed "FROM " then
        { a with
          baseImage := (jsSplit trimmed " ").get? 1
          multiStage := a.multiStage || strIncludes trimmed " as " || globalMulti }
      else if jsStartsWith trimmed "EXPOSE " then
        { a with exposedPorts :=
            a.exposedPorts ++ (jsSplit (String.mk (trimmed.data.drop 7)) " ").filterMap jsParseInt }
      else if jsStartsWith trimmed "WORKDIR " then
        { a with workdir := some (String.mk (trimmed.data.drop 8)) }
      else if jsStartsWith trimmed "HEALTHCHECK " then
        { a with healthcheck := true }
      else a)
    { baseImage := none, exposedPorts := [], workdir := none,
      multiStage := false, healthcheck := false }

/-- Embeds `findEnvironmentVariables` (`tools.ts` lines 916-943): scan of the
`.env.example` file. -/
def findEnvironmentVariables (s : Snapshot) : List EnvironmentVariable :=
  match s.envExample with
  | none => []
  | some c =>
    if c == "" then []
    else
      ((jsSplit c "\n").filter
        (fun l => !(jsTrim l == "") && !jsStartsWith l "#")).filterMap (fun l =>
          let parts := jsSplit l "="
          let name := parts.headD ""
          if name == "" then none
          else
            some { name := jsTrim name
                   required := true
                   defaultValue := (parts.get? 1).map jsTrim
                   sensitive := strIncludes (jsToLower name) "password" ||
                                strIncludes (jsToLower name) "secret" ||
                                strIncludes (jsToLower name) "key" })

/-- Embeds `analyzeBuildConfiguration` (`tools.ts` lines 859-887). A Dockerfile
that exists but has falsy (empty) content yields `hasDockerfile = true` with no
`dockerfileAnalysis`. -/
def analyzeBuildConfiguration (s : Snapshot) : BuildConfiguration :=
  let scripts := (s.packageJson.bind id).bind (·.scripts)
  { hasDockerfile := s.dockerfile.isSome
    dockerfileAnalysis := s.dockerfile.bind
      (fun c => if c == "" then none else some (analyzeDockerfile c))
    buildScript := scripts.bind (·.build)
    startScript := scripts.bind (·.start)
    testScript := scripts.bind (·.test)
    environmentVariables := findEnvironmentVariables s }

/-- Embeds `detectExternalServices` (`tools.ts` lines 995-1019). -/
def detectExternalServices (deps : List DependencyInfo) : List ExternalService :=
  deps.filterMap (fun dep =>
    let name := jsToLower dep.name
    if ["mysql", "mysql2", "pg", "postgres", "mongodb", "mongoose", "redis", "sqlite3"].contains name then
      some { name :=
               if strIncludes name "mysql" then "mysql"
               else if strIncludes name "pg" || strIncludes name "postgres" then "postgresql"
               else if strIncludes name "mongo" then "mongodb"
               else if strIncludes name "redis" then "redis"
               else if strIncludes name "sqlite" then "sqlite"
               else name
             stype := if strIncludes name "redis" then "cache" else "database"
             required := dep.depType == "production" }
    else none)

/-- Embeds `calculateDeploymentRequirements` (`tools.ts` lines 945-993). -/
def calculateDeploymentRequirements (techStack : TechStack) (dependencies : List DependencyInfo)
    (buildConfig : BuildConfiguration) : DeploymentRequirements :=
  let cpuMem : CpuReq × MemReq :=
    if techStack.primary == "javascript" || techStack.primary == "typescript" then
      if techStack.framework == some "nextjs" || techStack.framework == some "nuxt" then
        (⟨2, 4⟩, ⟨"2GB", "4GB"⟩)
      else (⟨1, 1⟩, ⟨"1GB", "2GB"⟩)
    else if techStack.primary == "python" then
      if techStack.framework == some "django" then (⟨2, 2⟩, ⟨"1GB", "2GB"⟩)
      else (⟨1, 1⟩, ⟨"512MB", "1GB"⟩)
    else if techStack.primary == "java" then (⟨2, 4⟩, ⟨"2GB", "4GB"⟩)
    else (⟨1, 1⟩, ⟨"512MB", "1GB"⟩)
  let memRecommended :=
    if dependencies.length > 50 then jsReplaceNum cpuMem.2.recommended
    else cpuMem.2.recommended
  let ports0 : List Nat := [80]
  let ports1 := if ports0.contains 443 then ports0 else ports0 ++ [443]
  let ports2 := ports1 ++
    (match buildConfig.dockerfileAnalysis with
     | some da => da.exposedPorts
     | none => [])
  { cpu := cpuMem.1
    memory := { min := cpuMem.2.min, recommended := memRecommended }
    storage := { min := "1GB", stype := "ssd" }
    network := { ports := jsSetDedup ports2, protocols := ["http", "https"] }
    services := detectExternalServices dependencies
    constraints := [] }

/-- Embeds `generateNativeDeploymentSteps` (`tools.ts` lines 1084-1115). -/
def generateNativeDeploymentSteps (techStack : TechStack) : List DeploymentStep :=
  if techStack.runtime == "nodejs" then
    [⟨1, "Clone repository", "Clone source code to deployment server", 60⟩,
     ⟨2, "Install dependencies", "Install Node.js dependencies", 180⟩,
     ⟨3, "Build application", "Build application if needed", 300⟩,
     ⟨4, "Stop existing process", "Stop current application process", 30⟩,
     ⟨5, "Start with PM2", "Start application with PM2 process manager", 60⟩,
     ⟨6, "Health check", "Verify application is healthy", 60⟩,
     ⟨7, "Update reverse proxy", "Configure Nginx/Caddy for new deployment", 30⟩]
  else if techStack.runtime == "python" then
    [⟨1, "Clone repository", "Clone source code to deployment server", 60⟩,
     ⟨2, "Create virtual environment", "Create Python virtual environment", 30⟩,
     ⟨3, "Install dependencies", "Install Python dependencies", 180⟩,
     ⟨4, "Run migrations", "Run database migrations if needed", 120⟩,
     ⟨5, "Stop existing service", "Stop current application service", 30⟩,
     ⟨6, "Start with Gunicorn", "Start application with Gunicorn WSGI server", 60⟩,
     ⟨7, "Health check", "Verify application is healthy", 60⟩,
     ⟨8, "Update reverse proxy", "Configure Nginx for new deployment", 30⟩]
  else
    [⟨1, "Clone repository", "Clone source code to deployment server", 60⟩,
     ⟨2, "Install dependencies", "Install application dependencies", 180⟩,
     ⟨3, "Build application", "Build/compile application", 300⟩,
     ⟨4, "Deploy application", "Deploy application to target location", 60⟩,
     ⟨5, "Health check", "Verify application is healthy", 60⟩]

/-- Embeds `recommendInfrastructure` (`tools.ts` lines 1117-1159). The tier
test is containment of the substring `4GB` in the recommended memory, then
`requirements.cpu.recommended >= 4`. -/
def recommendInfrastructure (requirements : DeploymentRequirements)
    (techStack : TechStack) : InfrastructureRecommendation :=
  let pick : String × Nat :=
    if strIncludes requirements.memory.recommended "4GB" then ("basic-2vcpu-4gb", 48)
    else if requirements.cpu.recommended ≥ 4 then ("basic-4vcpu-8gb", 96)
    else ("basic-1vcpu-2gb", 24)
  { provider := "digitalocean"
    instanceInfo := { itype := pick.1, cpu := requirements.cpu.recommended,
                      memory := requirements.memory.recommended, storage := "25GB" }
    network := { vpc := false, loadBalancer := false, cdn := false }
    scaling := { min := 1, max := 3, target := "cpu", threshold := 80 }
    estimatedCost := { monthly := pick.2, currency := "USD",
                       breakdown := [⟨"Droplet", pick.2, "month"⟩, ⟨"Bandwidth", 0, "month"⟩] } }

/-- Embeds `generateDeploymentStrategy` (`tools.ts` lines 1021-1082). -/
def generateDeploymentStrategy (techStack : TechStack) (buildConfig : BuildConfiguration)
    (requirements : DeploymentRequirements) : DeploymentStrategy :=
  let security : SecurityConfiguration :=
    { https := true
      firewall := [⟨22, "tcp", "specific", "SSH access"⟩,
                   ⟨80, "http", "any", "HTTP traffic"⟩,
                   ⟨443, "https", "any", "HTTPS traffic"⟩]
      secrets := ((buildConfig.environmentVariables.filter (·.sensitive)).map (·.name))
      monitoring := true
      backups := { enabled := true, frequency := "daily", retention := 7, btype := "incremental" } }
  let monitoring : MonitoringConfiguration :=
    { healthCheck := { endpoint := "/health", interval := 30, timeout := 5 }
      metrics := ["cpu", "memory", "disk", "network"]
      alerts := []
      logging := { level := "info", retention := 7 } }
  let rollback : RollbackStrategy :=
    { rtype := "manual"
      triggers := ["health_check_failed", "deployment_timeout"]
      steps := ["stop_new_service", "restore_previous_version", "verify_rollback"]
      timeout := 300 }
  let infrastructure := recommendInfrastructure requirements techStack
  if buildConfig.hasDockerfile then
    { stype := "container", approach := "docker"
      steps := [⟨1, "Clone repository", "Clone source code to deployment server", 60⟩,
                ⟨2, "Build Docker image", "Build application Docker image", 300⟩,
                ⟨3, "Stop existing container", "Stop current application container if running", 30⟩,
                ⟨4, "Start new container", "Start new application container", 60⟩,
                ⟨5, "Health check", "Verify application is healthy", 60⟩,
                ⟨6, "Update reverse proxy", "Configure Nginx/Caddy for new deployment", 30⟩]
      infrastructure, security, monitoring, rollback }
  else
    { stype := "server"
      approach := if techStack.runtime == "nodejs" then "pm2" else "systemd"
      steps := generateNativeDeploymentSteps techStack
      infrastructure, security, monitoring, rollback }

/-- Embeds `calculateConfidence` (`tools.ts` lines 1161-1172). -/
def calculateConfidence (techStack : TechStack) (dependencies : List DependencyInfo)
    (buildConfig : BuildConfiguration) : Nat :=
  let confidence := 50
    + (if !(techStack.primary == "unknown") then 20 else 0)
    + (if truthy techStack.framework && !(techStack.framework == some "none") then 15 else 0)
    + (if buildConfig.hasDockerfile then 15 else 0)
    + (if truthy buildConfig.startScript then 10 else 0)
    + (if dependencies.length > 0 then 10 else 0)
  min confidence 95

/-- Embeds `generateWarnings` (`tools.ts` lines 1174-1194). -/
def generateWarnings (techStack : TechStack) (dependencies : List DependencyInfo)
    (buildConfig : BuildConfiguration) : List String :=
  (if techStack.primary == "unknown" then ["Could not determine primary technology stack"] else []) ++
  (if !buildConfig.hasDockerfile && !truthy buildConfig.startScript then
    ["No Dockerfile or start script found - may require manual configuration"] else []) ++
  (if dependencies.length == 0 then ["No dependencies detected - analysis may be incomplete"] else []) ++
  (if buildConfig.environmentVariables.any (fun env => env.sensitive && !truthy env.defaultValue) then
    ["Sensitive environment variables detected without defaults"] else [])

/-- Embeds `generateRecommendations` (`tools.ts` lines 1196-1216). -/
def generateRecommendations (techStack : TechStack) (dependencies : List DependencyInfo)
    (buildConfig : BuildConfiguration) : List String :=
  (if !buildConfig.hasDockerfile then ["Consider adding a Dockerfile for consistent deployments"] else []) ++
  (if techStack.runtime == "nodejs" && !(dependencies.any (fun d => d.name == "pm2")) then
    ["Consider using PM2 for Node.js process management"] else []) ++
  (if !truthy buildConfig.testScript then ["Add automated tests to improve deployment confidence"] else []) ++
  ["Set up SSL/TLS certificate for HTTPS encryption",
   "Configure automated backups for data protection",
   "Implement monitoring and alerting for production readiness"]

/-- Embeds `analyzeRepository` (`tools.ts` lines 577-607): the composed pipeline.
The repository handle is elided (it only carries identifiers); the snapshot
stands for the cloned working tree and `now` for the wall clock read by
`new Date()`. An error thrown by `detectTechStack` rejects the whole
`Promise.all`, so it propagates as the `Except.error` case. -/
def analyzeRepository (s : Snapshot) (now : Nat) : Except String RepositoryAnalysis :=
  match detectTechStack s with
  | .error e => .error e
  | .ok techStack =>
    let dependencies := analyzeDependencies s
    let buildConfig := analyzeBuildConfiguration s
    let requirements := calculateDeploymentRequirements techStack dependencies buildConfig
    let strategy := generateDeploymentStrategy techStack buildConfig requirements
    .ok { techStack, dependencies, buildConfig, requirements, strategy
          confidence := calculateConfidence techStack dependencies buildConfig
          warnings := generateWarnings techStack dependencies buildConfig
          recommendations := generateRecommendations techStack dependencies buildConfig
          analysisDate := now }

structure Vulnerability where
  id : String
  severity : String
  title : String
  component : String
  recommendation : String
  deriving Repr, DecidableEq

structure SecuritySummary where
  total : Nat
  critical_count : Nat
  deriving Repr, DecidableEq

structure SecurityReport where
  vulnerabilities : List Vulnerability
  summary : SecuritySummary
  recommendations : List String
  deriving Repr, DecidableEq

/-- Embeds the vulnerability-report construction of `detectSecurityIssues`
(`src/unnamed/part_001` lines 320-386, identical in `part_002` lines 292-358),
as a function of the repository analysis it projects. `critical_count` is the
`severityCounts.critical || 0` lookup of the severity reduce. -/
def detectSecurityIssues (analysis : RepositoryAnalysis) : SecurityReport :=
  let v1 : List Vulnerability :=
    if !analysis.buildConfig.hasDockerfile then
      [{ id := "SEC-001", severity := "low", title := "No Dockerfile found",
         component := "build_configuration",
         recommendation := "Use containerization for consistent, secure deployments" }]
    else []
  let v2 : List Vulnerability :=
    if analysis.buildConfig.environmentVariables.any
        (fun env => env.sensitive && !truthy env.defaultValue) then
      [{ id := "SEC-002", severity := "high",
         title := "Sensitive environment variables without defaults",
         component := "configuration",
         recommendation := "Ensure all sensitive environment variables are properly managed" }]
    else []
  let v3 : List Vulnerability :=
    if !analysis.strategy.security.https then
      [{ id := "SEC-003", severity := "critical", title := "HTTPS not configured",
         component := "network_security",
         recommendation := "Enable HTTPS with SSL/TLS certificates" }]
    else []
  let vulnerabilities := v1 ++ v2 ++ v3
  { vulnerabilities
    summary := { total := vulnerabilities.length,
                 critical_count := (vulnerabilities.filter (fun v => v.severity == "critical")).length }
    recommendations := ["Enable HTTPS/SSL encryption", "Implement proper secret management",
                        "Configure firewall rules", "Set up automated security updates",
                        "Enable access logging and monitoring"] }

/-- A snapshot with no recognized file at all. -/
def emptySnapshot : Snapshot :=
  { packageJson := none, requirementsTxt := none, appPy := false, mainPy := false,
    managePy := false, pyprojectToml := false, gemfile := none, goMod := none,
    pomXml := false, cargoToml := false, composerJson := none, htmlFiles := false,
    dockerfile := none, envExample := none }

/-- The stack the fallback branch reports for an empty directory. -/
def unknownStack : TechStack :=
  { primary := "unknown", secondary := [], framework := none, language := "unknown",
    packageManager := none, buildTool := none, testing := [], runtime := "unknown" }

def flaskSnapshot : Snapshot := { emptySnapshot with requirementsTxt := some "flask==2.0.1" }

def dockerSnapshot : Snapshot :=
  { emptySnapshot with dockerfile := some "FROM node:18\nEXPOSE 3000\nWORKDIR /app" }

/-- The Dockerfile analysis of `dockerSnapshot`. -/
def dockerAnalysisSample : DockerfileAnalysis :=
  { baseImage := some "node:18", exposedPorts := [3000], workdir := some "/app",
    multiStage := false, healthcheck := false }

/-- A package manifest declaring a TypeScript-indicating dependency. -/
def tsPackage : PackageJson :=
  { dependencies := [("typescript", "^5.0.0")], devDependencies := [], scripts := none }

def tsSnapshot : Snapshot := { emptySnapshot with packageJson := some (some tsPackage) }

/-- Modelled from the words of the spec for C6 only: recommended memory of at
least 4 gigabytes, read off the size string. -/
def specMemAtLeast4GB (s : String) : Bool :=
  strIncludes s "GB" && decide (4 ≤ (jsParseInt s).getD 0)

/-- A Node manifest with the `next` framework and 50 further dependencies, so
the dependency-count surcharge multiplies the recommended memory. -/
def c6Package : PackageJson :=
  { dependencies := ("next", "13.0.0") :: (List.range 50).map (fun i => ("dep" ++ toString i, "1.0.0")),
    devDependencies := [], scripts := none }

def c6Snapshot : Snapshot := { emptySnapshot with packageJson := some (some c6Package) }

/-- A concrete computed requirements record whose recommended memory string is
exactly `4GB` (a Node stack with the `next` framework and few dependencies). -/
def c6MidTierRequirements : DeploymentRequirements :=
  calculateDeploymentRequirements (analyzeNodejsStack c6Package) []
    (analyzeBuildConfiguration emptySnapshot)

/-- A snapshot whose `package.json` exists but fails to parse. -/
def badJsonSnapshot : Snapshot := { emptySnapshot with packageJson := some none }

/-- The analysis record of the empty snapshot, written out through the same
pipeline stages as `analyzeRepository`. -/
def emptyAnalysis : RepositoryAnalysis :=
  let bc := analyzeBuildConfiguration emptySnapshot
  let req := calculateDeploymentRequirements unknownStack [] bc
  { techStack := unknownStack, dependencies := [], buildConfig := bc, requirements := req
    strategy := generateDeploymentStrategy unknownStack bc req
    confidence := calculateConfidence unknownStack [] bc
    warnings := generateWarnings unknownStack [] bc
    recommendations := generateRecommendations unknownStack [] bc
    analysisDate := 0 }

/-! Theorems. -/

theorem mem_jsSetDedupAux (n : Nat) :
    ∀ (l : List Nat) (a : Nat), l.length ≤ n → (a ∈ jsSetDedupAux n l ↔ a ∈ l) := by
  induction n with
  | zero =>
    intro l a h
    have : l = [] := List.length_eq_zero.mp (Nat.le_zero.mp h)
    subst this
    simp [jsSetDedupAux]
  | succ n ih =>
    intro l a h
    cases l with
    | nil => simp [jsSetDedupAux]
    | cons x xs =>
      have hlen : (xs.filter (fun y => y != x)).length ≤ n :=
        le_trans (List.length_filter_le _ _) (Nat.succ_le_succ_iff.mp h)
      simp only [jsSetDedupAux, List.mem_cons, ih _ a hlen, List.mem_filter, bne_iff_ne, ne_eq,
        decide_eq_true_eq]
      by_cases hax : a = x <;> simp [hax]

theorem nodup_jsSetDedupAux (n : Nat) :
    ∀ l : List Nat, l.length ≤ n → (jsSetDedupAux n l).Nodup := by
  induction n with
  | zero =>
    intro l h
    have : l = [] := List.length_eq_zero.mp (Nat.le_zero.mp h)
    subst this
    simp [jsSetDedupAux]
  | succ n ih =>
    intro l h
    cases l with
    | nil => simp [jsSetDedupAux]
    | cons x xs =>
      have hlen : (xs.filter (fun y => y != x)).length ≤ n :=
        le_trans (List.length_filter_le _ _) (Nat.succ_le_succ_iff.mp h)
      simp only [jsSetDedupAux]
      refine List.nodup_cons.mpr ⟨?_, ih _ hlen⟩
      intro hx
      rw [mem_jsSetDedupAux n _ x hlen] at hx
      simp [List.mem_filter] at hx

theorem mem_jsSetDedup (l : List Nat) (a : Nat) : a ∈ jsSetDedup l ↔ a ∈ l :=
  mem_jsSetDedupAux l.length l a le_rfl

theorem nodup_jsSetDedup (l : List Nat) : (jsSetDedup l).Nodup :=
  nodup_jsSetDedupAux l.length l le_rfl

/-- C4: for every combination of tech stack, dependency list and build
configuration, the confidence is an integer between 50 and 95, equal to 50
plus 20 for a known stack, 15 for a framework other than none, 15 for a
Dockerfile, 10 for a start script and 10 for a non-empty dependency list,
capped at 95. -/
theorem claim_C4 (ts : TechStack) (deps : List DependencyInfo) (bc : BuildConfiguration) :
    50 ≤ calculateConfidence ts deps bc ∧ calculateConfidence ts deps bc ≤ 95 ∧
    calculateConfidence ts deps bc =
      min (50 + (if !(ts.primary == "unknown") then 20 else 0)
          + (if truthy ts.framework && !(ts.framework == some "none") then 15 else 0)
          + (if bc.hasDockerfile then 15 else 0)
          + (if truthy bc.startScript then 10 else 0)
          + (if deps.length > 0 then 10 else 0)) 95 := by
  simp only [calculateConfidence]
  refine ⟨?_, ?_, trivial⟩ <;> split_ifs <;> omega

/-- C2: the deployment strategy is a binary branch on `hasDockerfile`: a
Dockerfile gives type container, approach docker and the fixed six-step plan
with fixed timeouts; otherwise type server with approach pm2 for the nodejs
runtime and systemd for any other, and 7, 8 or 5 steps for runtimes nodejs,
python and anything else respectively. -/
theorem claim_C2 (ts : TechStack) (bc : BuildConfiguration) (req : DeploymentRequirements) :
    (bc.hasDockerfile = true →
      (generateDeploymentStrategy ts bc req).stype = "container" ∧
      (generateDeploymentStrategy ts bc req).approach = "docker" ∧
      (generateDeploymentStrategy ts bc req).steps =
        [⟨1, "Clone repository", "Clone source code to deployment server", 60⟩,
         ⟨2, "Build Docker image", "Build application Docker image", 300⟩,
         ⟨3, "Stop existing container", "Stop current application container if running", 30⟩,
         ⟨4, "Start new container", "Start new application container", 60⟩,
         ⟨5, "Health check", "Verify application is healthy", 60⟩,
         ⟨6, "Update reverse proxy", "Configure Nginx/Caddy for new deployment", 30⟩]) ∧
    (bc.hasDockerfile = false →
      (generateDeploymentStrategy ts bc req).stype = "server" ∧
      (ts.runtime = "nodejs" → (generateDeploymentStrategy ts bc req).approach = "pm2") ∧
      (ts.runtime ≠ "nodejs" → (generateDeploymentStrategy ts bc req).approach = "systemd") ∧
      (ts.runtime = "nodejs" → (generateDeploymentStrategy ts bc req).steps.length = 7) ∧
      (ts.runtime = "python" → (generateDeploymentStrategy ts bc req).steps.length = 8) ∧
      (ts.runtime ≠ "nodejs" → ts.runtime ≠ "python" →
        (generateDeploymentStrategy ts bc req).steps.length = 5)) := by
  constructor
  · intro h
    simp [generateDeploymentStrategy, h]
  · intro h
    simp only [generateDeploymentStrategy, generateNativeDeploymentSteps, h, Bool.false_eq_true,
      if_false]
    refine ⟨trivial, ?_, ?_, ?_, ?_, ?_⟩
    · intro hn; simp [hn]
    · intro hn; simp [hn]
    · intro hn; simp [hn]
    · intro hp
      have hn : ts.runtime ≠ "nodejs" := by simp [hp]
      simp [hp, hn]
    · intro hn hp; simp [hn, hp]

/-- C2 witness: at a build configuration with a Dockerfile the strategy is the
fixed container plan, and without one a nodejs stack gets the 7-step pm2 plan. -/
theorem claim_C2_witness :
    (generateDeploymentStrategy unknownStack (analyzeBuildConfiguration dockerSnapshot)
      (calculateDeploymentRequirements unknownStack [] (analyzeBuildConfiguration dockerSnapshot))).stype =
        "container" ∧
    (generateDeploymentStrategy unknownStack (analyzeBuildConfiguration dockerSnapshot)
      (calculateDeploymentRequirements unknownStack [] (analyzeBuildConfiguration dockerSnapshot))).approach =
        "docker" := by
  have h := claim_C2 unknownStack (analyzeBuildConfiguration dockerSnapshot)
    (calculateDeploymentRequirements unknownStack [] (analyzeBuildConfiguration dockerSnapshot))
  have hd := h.1 (by decide)
  exact ⟨hd.1, hd.2.1⟩

/-- C3: the computed port list always contains 80 and 443, has no duplicates,
and includes every exposed port of a present Dockerfile analysis. -/
theorem claim_C3 (ts : TechStack) (deps : List DependencyInfo) (bc : BuildConfiguration) :
    80 ∈ (calculateDeploymentRequirements ts deps bc).network.ports ∧
    443 ∈ (calculateDeploymentRequirements ts deps bc).network.ports ∧
    (calculateDeploymentRequirements ts deps bc).network.ports.Nodup ∧
    (∀ da, bc.dockerfileAnalysis = some da →
      ∀ p ∈ da.exposedPorts, p ∈ (calculateDeploymentRequirements ts deps bc).network.ports) := by
  have hports : (calculateDeploymentRequirements ts deps bc).network.ports =
      jsSetDedup ([80, 443] ++
        (match bc.dockerfileAnalysis with | some da => da.exposedPorts | none => [])) := by
    simp [calculateDeploymentRequirements]
  refine ⟨?_, ?_, ?_, ?_⟩
  · rw [hports, mem_jsSetDedup]; simp
  · rw [hports, mem_jsSetDedup]; simp
  · rw [hports]; exact nodup_jsSetDedup _
  · intro da hda p hp
    rw [hports, mem_jsSetDedup, hda]
    simp [hp]

/-- C3 witness: for the sample Dockerfile exposing port 3000, the port list
contains 80, 443 and 3000 and has no duplicates. -/
theorem claim_C3_witness :
    80 ∈ (calculateDeploymentRequirements unknownStack []
            (analyzeBuildConfiguration dockerSnapshot)).network.ports ∧
    443 ∈ (calculateDeploymentRequirements unknownStack []
            (analyzeBuildConfiguration dockerSnapshot)).network.ports ∧
    (calculateDeploymentRequirements unknownStack []
            (analyzeBuildConfiguration dockerSnapshot)).network.ports.Nodup ∧
    3000 ∈ (calculateDeploymentRequirements unknownStack []
            (analyzeBuildConfiguration dockerSnapshot)).network.ports := by
  have h := claim_C3 unknownStack [] (analyzeBuildConfiguration dockerSnapshot)
  exact ⟨h.1, h.2.1, h.2.2.1, h.2.2.2 dockerAnalysisSample (by decide) 3000 (by decide)⟩

/-- C1 counterexample: with a `package.json` declaring the dependency
`typescript`, the classifier still reports `primary = "javascript"`, never
`primary = "typescript"` — the TypeScript signal only moves the separate
`language` field. -/
theorem claim_C1_counterexample :
    hasDep tsPackage "typescript" = true ∧
    detectTechStack tsSnapshot = .ok (analyzeNodejsStack tsPackage) ∧
    (analyzeNodejsStack tsPackage).primary = "javascript" ∧
    ¬(analyzeNodejsStack tsPackage).primary = "typescript" ∧
    (analyzeNodejsStack tsPackage).language = "typescript" := by
  refine ⟨by decide, rfl, by decide, by decide, by decide⟩

/-- C1 (amended): whenever the snapshot has a parsable `package.json`, the Node
branch runs first regardless of other manifests, `primary` is always
`"javascript"`, and the `language` field is `"typescript"` exactly when the
merged dependency maps contain `typescript` or `@types/node`. -/
theorem claim_C1 (s : Snapshot) (p : PackageJson) (h : s.packageJson = some (some p)) :
    detectTechStack s = .ok (analyzeNodejsStack p) ∧
    (analyzeNodejsStack p).primary = "javascript" ∧
    ((analyzeNodejsStack p).language = "typescript" ↔
      (hasDep p "typescript" || hasDep p "@types/node") = true) := by
  refine ⟨?_, rfl, ?_⟩
  · unfold detectTechStack
    rw [h]
  · simp only [analyzeNodejsStack]
    by_cases hc : (hasDep p "typescript" || hasDep p "@types/node") = true
    · simp [hc]
    · simp only [Bool.not_eq_true] at hc
      simp [hc]

/-- C1 witness: the amended statement instantiated at the TypeScript snapshot. -/
theorem claim_C1_witness :
    detectTechStack tsSnapshot = .ok (analyzeNodejsStack tsPackage) ∧
    (analyzeNodejsStack tsPackage).primary = "javascript" ∧
    ((analyzeNodejsStack tsPackage).language = "typescript" ↔
      (hasDep tsPackage "typescript" || hasDep tsPackage "@types/node") = true) :=
  claim_C1 tsSnapshot tsPackage rfl

theorem splitCharAux_no_class_char (p : Char → Bool) :
    ∀ (l acc : List Char), (∀ c ∈ acc, p c = false) →
      ∀ chunk ∈ splitCharAux p l acc, ∀ ch ∈ chunk, p ch = false := by
  intro l
  induction l with
  | nil =>
    intro acc hacc chunk hchunk ch hch
    simp only [splitCharAux, List.mem_singleton] at hchunk
    subst hchunk
    exact hacc ch (List.mem_reverse.mp hch)
  | cons c rest ih =>
    intro acc hacc chunk hchunk ch hch
    simp only [splitCharAux] at hchunk
    by_cases hp : p c = true
    · rw [if_pos hp] at hchunk
      rcases List.mem_cons.mp hchunk with h1 | h2
      · subst h1
        exact hacc ch (List.mem_reverse.mp hch)
      · exact ih [] (by intro x hx; cases hx) chunk h2 ch hch
    · rw [if_neg hp] at hchunk
      refine ih (c :: acc) ?_ chunk hchunk ch hch
      intro x hx
      rcases List.mem_cons.mp hx with h1 | h2
      · subst h1; exact Bool.not_eq_true _ ▸ (by simpa using hp)
      · exact hacc x h2

theorem splitOnAux_single (s0 : Char) (sep : List Char) :
    ∀ (n : Nat) (l acc : List Char), (∀ c ∈ l, (s0 == c) = false) →
      splitOnAux (s0 :: sep) n l acc = [acc.reverse ++ l] := by
  intro n
  induction n with
  | zero => intro l acc h; rfl
  | succ n ih =>
    intro l acc h
    cases l with
    | nil => simp [splitOnAux]
    | cons c rest =>
      have hpref : ((s0 :: sep).isPrefixOf (c :: rest)) = false := by
        have := h c (List.mem_cons_self c rest)
        simp [List.isPrefixOf, this]
      simp only [splitOnAux, hpref, Bool.false_eq_true, if_false]
      rw [ih rest (c :: acc) (fun x hx => h x (List.mem_cons_of_mem c hx))]
      simp

/-- A string with no `=` character splits on `==` into itself alone. -/
theorem jsSplit_eqeq_single (s : String) (h : ∀ c ∈ s.data, (('=' : Char) == c) = false) :
    jsSplit s "==" = [s] := by
  unfold jsSplit
  rw [if_neg (by decide)]
  have hsep : ("==".data) = '=' :: ['='] := rfl
  rw [hsep, splitOnAux_single '=' ['='] (s.data.length + 1) s.data [] h]
  rfl

/-- The chunk the dependency extractor re-splits can never contain an `=`
character, because the first split removed every occurrence; hence the version
half of the destructuring is always empty and every Python dependency is
recorded with the version `latest`. -/
theorem parsePythonDepLine_version (line : String) (d : DependencyInfo)
    (h : parsePythonDepLine line = some d) : d.version = "latest" := by
  unfold parsePythonDepLine at h
  simp only [] at h
  set head := (jsSplitChar line pyConstraintChar).headD "" with hhead
  have hchars : ∀ ch ∈ head.data, pyConstraintChar ch = false := by
    cases hpieces : jsSplitChar line pyConstraintChar with
    | nil => rw [hhead, hpieces]; intro ch hch; cases hch
    | cons h0 t =>
      rw [hhead, hpieces]
      simp only [List.headD_cons]
      intro ch hch
      have hmem : h0 ∈ jsSplitChar line pyConstraintChar := by
        rw [hpieces]; exact List.mem_cons_self _ _
      unfold jsSplitChar at hmem
      rcases List.mem_map.mp hmem with ⟨chunk, hchunk, hmk⟩
      refine splitCharAux_no_class_char pyConstraintChar line.data []
        (by intro x hx; cases hx) chunk hchunk ch ?_
      rw [← hmk] at hch
      exact hch
  have hnoeq : ∀ c ∈ head.data, (('=' : Char) == c) = false := by
    intro c hc
    have hpc := hchars c hc
    unfold pyConstraintChar at hpc
    by_cases hce : c = '='
    · subst hce; simp at hpc
    · simp only [beq_eq_false_iff_ne, ne_eq]
      exact fun hh => hce hh.symm
  rw [jsSplit_eqeq_single head hnoeq] at h
  by_cases hname : (jsTrim head == "") = true
  · simp [hname] at h
  · simp only [List.headD_cons, hname, Bool.false_eq_true, if_false] at h
    injection h with h2
    rw [← h2]
    rfl

/-- C5: on a requirements file consisting of the single line `flask==2.0.1`,
the extractor produces exactly one dependency — but its version is the literal
`latest`, not `2.0.1`, while the classifier does set the framework to flask. -/
theorem claim_C5 :
    analyzeDependencies flaskSnapshot =
      [{ name := "flask", version := "latest", depType := "production" }] ∧
    detectTechStack flaskSnapshot = .ok (analyzePythonStack flaskSnapshot) ∧
    (analyzePythonStack flaskSnapshot).framework = some "flask" ∧
    ¬analyzeDependencies flaskSnapshot =
      [{ name := "flask", version := "2.0.1", depType := "production" }] := by
  refine ⟨by decide, rfl, by decide, by decide⟩

/-- C6 counterexample: a computed requirements record with recommended memory
`6GB` (at least 4GB) is routed to the top tier `basic-4vcpu-8gb` at 96, not the
mid tier `basic-2vcpu-4gb` at 48 the claim requires, because the code tests
string containment of `4GB`, not a numeric threshold. -/
theorem claim_C6_counterexample :
    (analyzeRepository c6Snapshot 0).map
      (fun a => (a.requirements.memory.recommended,
                 a.strategy.infrastructure.instanceInfo.itype,
                 a.strategy.infrastructure.estimatedCost.monthly)) =
      .ok ("6GB", "basic-4vcpu-8gb", 96) ∧
    specMemAtLeast4GB "6GB" = true ∧
    ¬("basic-4vcpu-8gb" = "basic-2vcpu-4gb" ∧ (96 : Nat) = 48) := by
  refine ⟨rfl, by decide, by decide⟩

/-- C6 (amended): the infrastructure recommendation is the three-tier table
keyed on the literal substring `4GB` of the recommended-memory string first and
the recommended CPU count second, and the cost breakdown is always the instance
cost plus a zero-cost bandwidth component. -/
theorem claim_C6 (req : DeploymentRequirements) (ts : TechStack) :
    (strIncludes req.memory.recommended "4GB" = true →
      (recommendInfrastructure req ts).instanceInfo.itype = "basic-2vcpu-4gb" ∧
      (recommendInfrastructure req ts).estimatedCost.monthly = 48) ∧
    (strIncludes req.memory.recommended "4GB" = false → 4 ≤ req.cpu.recommended →
      (recommendInfrastructure req ts).instanceInfo.itype = "basic-4vcpu-8gb" ∧
      (recommendInfrastructure req ts).estimatedCost.monthly = 96) ∧
    (strIncludes req.memory.recommended "4GB" = false → req.cpu.recommended < 4 →
      (recommendInfrastructure req ts).instanceInfo.itype = "basic-1vcpu-2gb" ∧
      (recommendInfrastructure req ts).estimatedCost.monthly = 24) ∧
    (recommendInfrastructure req ts).estimatedCost.breakdown =
      [⟨"Droplet", (recommendInfrastructure req ts).estimatedCost.monthly, "month"⟩,
       ⟨"Bandwidth", 0, "month"⟩] := by
  refine ⟨?_, ?_, ?_, ?_⟩
  · intro h
    simp [recommendInfrastructure, h]
  · intro h hc
    simp [recommendInfrastructure, h, hc]
  · intro h hc
    have hc2 : ¬(4 ≤ req.cpu.recommended) := by omega
    simp [recommendInfrastructure, h, hc2]
  · simp only [recommendInfrastructure]

/-- C6 witness: the amended table instantiated at a record with recommended
memory `4GB` picks the mid tier at 48. -/
theorem claim_C6_witness :
    (recommendInfrastructure c6MidTierRequirements unknownStack).instanceInfo.itype =
        "basic-2vcpu-4gb" ∧
    (recommendInfrastructure c6MidTierRequirements unknownStack).estimatedCost.monthly = 48 :=
  (claim_C6 c6MidTierRequirements unknownStack).1 (by decide)

/-- C7 counterexample: a present-but-unparsable `package.json` is read by the
throwing `readJsonFile` inside `detectTechStack`, so the whole analysis rejects
instead of treating the file as absent and returning a complete record. -/
theorem claim_C7_counterexample :
    badJsonSnapshot.packageJson.isSome = true ∧
    analyzeRepository badJsonSnapshot 0 = .error "Could not read JSON file package.json" :=
  ⟨rfl, rfl⟩

/-- C7 (amended): unless the `package.json` itself is present but unparsable,
every snapshot yields a complete analysis record — parse failures of every
other manifest are absorbed by the `IfExists` readers. -/
theorem claim_C7 (s : Snapshot) (now : Nat) (h : s.packageJson ≠ some none) :
    (analyzeRepository s now).toOption.isSome = true := by
  have hts : ∃ ts, detectTechStack s = .ok ts := by
    unfold detectTechStack
    cases hpk : s.packageJson with
    | some op =>
      cases op with
      | some p => exact ⟨analyzeNodejsStack p, rfl⟩
      | none => exact absurd hpk h
    | none =>
      split_ifs <;> exact ⟨_, rfl⟩
  obtain ⟨ts, hts⟩ := hts
  unfold analyzeRepository
  rw [hts]
  rfl

/-- C7 witness: the empty snapshot analyzes to a complete record. -/
theorem claim_C7_witness : (analyzeRepository emptySnapshot 0).toOption.isSome = true :=
  claim_C7 emptySnapshot 0 (by simp [emptySnapshot])

/-- C8: the analysis is a pure function of the snapshot: two runs at different
wall-clock instants agree on every component, and the whole records agree once
the timestamp is normalised. -/
theorem claim_C8 (s : Snapshot) (t1 t2 : Nat) :
    (analyzeRepository s t1).map
        (fun a => (a.techStack, a.dependencies, a.buildConfig, a.requirements)) =
      (analyzeRepository s t2).map
        (fun a => (a.techStack, a.dependencies, a.buildConfig, a.requirements)) ∧
    (analyzeRepository s t1).map (fun a => { a with analysisDate := 0 }) =
      (analyzeRepository s t2).map (fun a => { a with analysisDate := 0 }) := by
  unfold analyzeRepository
  cases detectTechStack s <;> exact ⟨rfl, rfl⟩

/-- C9: whenever the classifier reports the fallback primaries `unknown` or
`static`, the dependency extractor returns the empty list, because those
branches are reachable only with no `package.json` and no `requirements.txt`
at the root — the only two files the extractor reads. -/
theorem claim_C9 (s : Snapshot) (ts : TechStack) (h : detectTechStack s = .ok ts)
    (hp : ts.primary = "unknown" ∨ ts.primary = "static") :
    analyzeDependencies s = [] := by
  unfold detectTechStack at h
  cases hpk : s.packageJson with
  | some op =>
    rw [hpk] at h
    cases op with
    | some p =>
      simp only [Except.ok.injEq] at h
      subst h
      simp [analyzeNodejsStack] at hp
    | none => simp at h
  | none =>
    rw [hpk] at h
    by_cases h1 : (s.requirementsTxt.isSome || s.appPy || s.mainPy) = true
    · rw [if_pos h1] at h
      simp only [Except.ok.injEq] at h
      subst h
      simp [analyzePythonStack] at hp
    · rw [if_neg h1] at h
      have hreqn : s.requirementsTxt = none := by
        cases hr : s.requirementsTxt with
        | none => rfl
        | some c => exact absurd (by simp [hr]) h1
      simp [analyzeDependencies, hpk, hreqn]

/-- C9 witness: the empty snapshot classifies as `unknown` and extracts no
dependencies. -/
theorem claim_C9_witness : analyzeDependencies emptySnapshot = [] :=
  claim_C9 emptySnapshot unknownStack rfl (Or.inl rfl)

theorem generateDeploymentStrategy_https (ts : TechStack) (bc : BuildConfiguration)
    (req : DeploymentRequirements) :
    (generateDeploymentStrategy ts bc req).security.https = true := by
  unfold generateDeploymentStrategy
  split <;> rfl

/-- C10: every analysis record sets `strategy.security.https = true`, so the
SEC-003 branch of `detectSecurityIssues` is unreachable: the report never
contains the critical vulnerability and its critical count is always zero. -/
theorem claim_C10 (s : Snapshot) (now : Nat) (a : RepositoryAnalysis)
    (h : analyzeRepository s now = .ok a) :
    a.strategy.security.https = true ∧
    (detectSecurityIssues a).vulnerabilities.all (fun v => !(v.id == "SEC-003")) = true ∧
    (detectSecurityIssues a).summary.critical_count = 0 := by
  have hhttps : a.strategy.security.https = true := by
    unfold analyzeRepository at h
    cases hts : detectTechStack s with
    | error e => rw [hts] at h; cases h
    | ok ts =>
      rw [hts] at h
      simp only [Except.ok.injEq] at h
      subst h
      exact generateDeploymentStrategy_https _ _ _
  refine ⟨hhttps, ?_, ?_⟩ <;>
    simp only [detectSecurityIssues, hhttps, Bool.not_true, Bool.false_eq_true, if_false] <;>
    split_ifs <;> decide

/-- C10 witness: the security report for the analysis of the empty snapshot has no
SEC-003 entry and a zero critical count. -/
theorem claim_C10_witness :
    emptyAnalysis.strategy.security.https = true ∧
    (detectSecurityIssues emptyAnalysis).vulnerabilities.all
      (fun v => !(v.id == "SEC-003")) = true ∧
    (detectSecurityIssues emptyAnalysis).summary.critical_count = 0 :=
  claim_C10 emptySnapshot 0 emptyAnalysis rfl

end Mercury
